import Mathlib

/-!
Shallow embedding of `src/.hyperfetch/modules/arch.py` (HyperFetch).

The module reads two ambient platform facts and prints them:

* `platform.architecture()` returns a pair of strings `(bits, linkage)`,
  e.g. `("64bit", "ELF")`;
* `platform.machine()` returns a string, possibly empty.

`get_architecture_info` packs them into a dict
`{'architecture': architecture, 'machine': machine}` — note that the
`'architecture'` entry holds the *whole pair*, not just the bitness string.
`run` then prints two colorized lines, indexing the pair at position 0:

    print(f'{Fore.GREEN}Architecture:{Style.RESET_ALL} {info["architecture"][0]}')
    print(f'{Fore.GREEN}Machine:{Style.RESET_ALL} {info["machine"]}')

We model the ambient OS metadata as an explicit `PlatformState`, Python
values flowing through the module as `PyValue` (strings and tuples of
strings, the only shapes that occur here), fallible sequence indexing as
`Option`, and the printed output as the list of lines written to stdout.
-/

/-- Colorama's `Fore.GREEN`: the ANSI escape code for green foreground. -/
def Fore.GREEN : String := "\x1b[32m"

/-- Colorama's `Style.RESET_ALL`: the ANSI escape code resetting styling. -/
def Style.RESET_ALL : String := "\x1b[0m"

/-- A Python value as it occurs in this module: a string, or a tuple of
strings (the shape `platform.architecture()` returns). -/
inductive PyValue where
  | str (s : String)
  | tuple (items : List String)
deriving DecidableEq

/-- Python sequence indexing `v[i]` for the shapes above: on a string it
yields the one-character string at position `i`, on a tuple the element at
position `i`; out-of-range indexing is the error branch (`none`,
Python's `IndexError`). -/
def pyIndex : PyValue → Nat → Option PyValue
  | .str s, i => (s.data[i]?).map fun c => .str (String.singleton c)
  | .tuple items, i => (items[i]?).map .str

/-- Python `repr` of a string, as used when a tuple is stringified.
(Escaping of quotes and control characters is not modelled; the program
never stringifies a tuple, see `pyStr`.) -/
def pyReprOfString (s : String) : String := "'" ++ s ++ "'"

/-- Body of Python's `str` of a tuple: comma-separated `repr`s of the
elements, with Python's trailing comma for a one-element tuple. -/
def pyTupleBody : List String → String
  | [] => ""
  | [s] => pyReprOfString s ++ ","
  | s :: rest => pyReprOfString s ++ ", " ++ pyTupleBody rest

/-- Python `str()` conversion as performed by an f-string interpolation:
the identity on strings, parenthesised `repr`s for a tuple. -/
def pyStr : PyValue → String
  | .str s => s
  | .tuple items => "(" ++ pyTupleBody items ++ ")"

/-- `true` exactly on Python string values. -/
def PyValue.isStr : PyValue → Bool
  | .str _ => true
  | .tuple _ => false

/-- `true` exactly on pairs (2-tuples) of strings. -/
def PyValue.isPairOfStrs : PyValue → Bool
  | .tuple [_, _] => true
  | _ => false

/-- The ambient OS metadata the module reads: the two components of
`platform.architecture()` and the result of `platform.machine()`. -/
structure PlatformState where
  bits : String
  linkage : String
  machine : String
deriving DecidableEq

/-- `platform.architecture()`: the pair `(bits, linkage)` of the running
process, e.g. `("64bit", "ELF")`. -/
def platformArchitecture (st : PlatformState) : PyValue :=
  .tuple [st.bits, st.linkage]

/-- `platform.machine()`: the machine type string, e.g. `"x86_64"`;
empty when the host cannot determine it. -/
def platformMachine (st : PlatformState) : PyValue :=
  .str st.machine

/-- The dict returned by `get_architecture_info`, with its two literal
keys `'architecture'` and `'machine'` as fields. -/
structure ArchInfo where
  architecture : PyValue
  machine : PyValue
deriving DecidableEq

/-- `get_architecture_info()` (arch.py lines 4-14): queries the platform
and returns `{'architecture': platform.architecture(), 'machine':
platform.machine()}`. -/
def get_architecture_info (st : PlatformState) : ArchInfo :=
  { architecture := platformArchitecture st
    machine := platformMachine st }

/-- The printing step of `run` (arch.py lines 18-19), taking the record it
consumes as input: the two `print` calls, each producing one stdout line.
`none` models an uncaught `IndexError` from `info["architecture"][0]`. -/
def report (info : ArchInfo) : Option (List String) := do
  let a ← pyIndex info.architecture 0
  some [Fore.GREEN ++ "Architecture:" ++ Style.RESET_ALL ++ " " ++ pyStr a,
        Fore.GREEN ++ "Machine:" ++ Style.RESET_ALL ++ " " ++ pyStr info.machine]

/-- `run()` (arch.py lines 16-19): collect the record, then print it. -/
def run (st : PlatformState) : Option (List String) :=
  report (get_architecture_info st)

/-- Removes the two ANSI escape sequences the module emits, leaving the
visible text of a line (used to state what the printed lines look like). -/
def dropEsc : List Char → List Char
  | [] => []
  | '\x1b' :: '[' :: '3' :: '2' :: 'm' :: rest => dropEsc rest
  | '\x1b' :: '[' :: '0' :: 'm' :: rest => dropEsc rest
  | c :: rest => c :: dropEsc rest

/-- The visible text of a printed line: the line with the color escape
codes removed. -/
def stripColors (s : String) : String := ⟨dropEsc s.data⟩

/-- C1 (counterexample): the claim says both fields of the returned record
are strings, but on a concrete successful platform state the
`'architecture'` field of the record is not a string (it is the whole
pair returned by `platform.architecture()`). -/
theorem C1_architecture_field_not_a_string :
    ((get_architecture_info ⟨"64bit", "ELF", "x86_64"⟩).architecture).isStr = false := by
  decide

/-- C1 (amended): for every platform state, `get_architecture_info`
returns a record whose `'machine'` field is a string (possibly empty,
never null) and whose `'architecture'` field is a pair of two strings;
the bitness descriptor is the first string of that pair. -/
theorem C1_collected_field_shapes (st : PlatformState) :
    ((get_architecture_info st).machine).isStr = true ∧
    ((get_architecture_info st).architecture).isPairOfStrs = true ∧
    pyIndex (get_architecture_info st).architecture 0 = some (.str st.bits) := by
  refine ⟨rfl, rfl, rfl⟩

/-- C2: for every platform state, `run` writes exactly two lines, in the
fixed order Architecture-then-Machine, and each line carries the
corresponding field's value verbatim as its tail, with no truncation or
reformatting of the value. -/
theorem C2_run_exactly_two_lines (st : PlatformState) :
    ∃ l1 l2, run st = some [l1, l2] ∧
      l1 = Fore.GREEN ++ "Architecture:" ++ Style.RESET_ALL ++ " " ++ st.bits ∧
      l2 = Fore.GREEN ++ "Machine:" ++ Style.RESET_ALL ++ " " ++ st.machine := by
  exact ⟨_, _, rfl, rfl, rfl⟩

/-- C3: on a host reporting bitness `"64bit"` and machine `"x86_64"`
(whatever the linkage component), the collected record carries bitness
descriptor `"64bit"` and machine label `"x86_64"`, and `run` prints the
line `Architecture: 64bit` followed by the line `Machine: x86_64`
(visible text, i.e. after removing the color escape codes). -/
theorem C3_x86_64_scenario (linkage : String) :
    pyIndex (get_architecture_info ⟨"64bit", linkage, "x86_64"⟩).architecture 0 =
      some (.str "64bit") ∧
    (get_architecture_info ⟨"64bit", linkage, "x86_64"⟩).machine = .str "x86_64" ∧
    ∃ l1 l2, run ⟨"64bit", linkage, "x86_64"⟩ = some [l1, l2] ∧
      stripColors l1 = "Architecture: 64bit" ∧
      stripColors l2 = "Machine: x86_64" := by
  refine ⟨rfl, rfl, _, _, rfl, ?_, ?_⟩
  · show stripColors (Fore.GREEN ++ "Architecture:" ++ Style.RESET_ALL ++ " " ++ "64bit") =
      "Architecture: 64bit"
    decide
  · show stripColors (Fore.GREEN ++ "Machine:" ++ Style.RESET_ALL ++ " " ++ "x86_64") =
      "Machine: x86_64"
    decide

/-- C4 (counterexample): the claim says the printing step completes
without error for every pair of strings in the two fields, but with the
`'architecture'` field the empty string, `info["architecture"][0]`
raises (IndexError), so `report` fails. -/
theorem C4_report_fails_on_empty_first_string :
    report ⟨.str "", .str "x86_64"⟩ = none := rfl

/-- C4 (amended): the printing step completes without error for every
pair of strings given as the two fields, provided the architecture
string is non-empty (the code indexes that field at position 0, which
fails only on an empty sequence). -/
theorem C4_report_total_on_nonempty (a m : String) (h : a ≠ "") :
    ∃ out, report ⟨.str a, .str m⟩ = some out := by
  have hd : a.data ≠ [] := by
    intro hnil
    apply h
    obtain ⟨l⟩ := a
    have hl : l = [] := hnil
    subst hl
    rfl
  obtain ⟨c, cs, hcons⟩ := List.exists_cons_of_ne_nil hd
  refine ⟨[Fore.GREEN ++ "Architecture:" ++ Style.RESET_ALL ++ " " ++ String.singleton c,
           Fore.GREEN ++ "Machine:" ++ Style.RESET_ALL ++ " " ++ m], ?_⟩
  simp [report, pyIndex, hcons, pyStr]

/-- C4 (witness): the amended theorem at the concrete input
`("64bit", "x86_64")`. -/
theorem C4_report_total_on_nonempty_witness :
    ("64bit" : String) ≠ "" ∧ ∃ out, report ⟨.str "64bit", .str "x86_64"⟩ = some out :=
  ⟨by decide, C4_report_total_on_nonempty "64bit" "x86_64" (by decide)⟩

/-- C5: when the machine-type query returns the empty string, collection
does not fail and `run` prints `Machine: ` — label present, value empty —
rather than raising. -/
theorem C5_empty_machine_prints_empty_value (bits linkage : String) :
    ∃ l1 l2, run ⟨bits, linkage, ""⟩ = some [l1, l2] ∧
      l2 = Fore.GREEN ++ "Machine:" ++ Style.RESET_ALL ++ " " ∧
      stripColors l2 = "Machine: " := by
  refine ⟨_, _, rfl, rfl, ?_⟩
  show stripColors (Fore.GREEN ++ "Machine:" ++ Style.RESET_ALL ++ " " ++ "") = "Machine: "
  decide

/-- C6: two calls of `get_architecture_info` under the same ambient OS
metadata yield records with identical field values — the collector is
deterministic as a function of the ambient platform state. -/
theorem C6_collect_deterministic (st1 st2 : PlatformState) (h : st1 = st2) :
    (get_architecture_info st1).architecture = (get_architecture_info st2).architecture ∧
    (get_architecture_info st1).machine = (get_architecture_info st2).machine := by
  subst h
  exact ⟨rfl, rfl⟩

/-- C6 (witness): determinism at a concrete platform state. -/
theorem C6_collect_deterministic_witness :
    (⟨"64bit", "ELF", "x86_64"⟩ : PlatformState) = ⟨"64bit", "ELF", "x86_64"⟩ ∧
    ((get_architecture_info ⟨"64bit", "ELF", "x86_64"⟩).architecture =
      (get_architecture_info ⟨"64bit", "ELF", "x86_64"⟩).architecture ∧
     (get_architecture_info ⟨"64bit", "ELF", "x86_64"⟩).machine =
      (get_architecture_info ⟨"64bit", "ELF", "x86_64"⟩).machine) :=
  ⟨rfl, C6_collect_deterministic _ _ rfl⟩

/-- C7 (counterexample): the claim says both fields are non-empty strings
whenever the OS query succeeds, but on a host whose (successful) machine
query returns the empty string the `'machine'` field is the empty string,
and the `'architecture'` field is not a string at all. -/
theorem C7_fields_not_nonempty_strings :
    (get_architecture_info ⟨"32bit", "ELF", ""⟩).machine = .str "" ∧
    ((get_architecture_info ⟨"32bit", "ELF", ""⟩).architecture).isStr = false := by
  exact ⟨rfl, by decide⟩

/-- C7 (amended): whenever the OS query succeeds, the `'machine'` field is
exactly the (possibly empty) string the machine query reports and the
`'architecture'` field is exactly the pair of strings the bitness query
reports; the collector builds each record afresh from the ambient state
and never mutates previously returned records (a repeated call returns an
equal record, leaving the first untouched). -/
theorem C7_fields_pass_through (st : PlatformState) :
    (get_architecture_info st).machine = .str st.machine ∧
    (get_architecture_info st).architecture = .tuple [st.bits, st.linkage] ∧
    get_architecture_info st = get_architecture_info st := by
  exact ⟨rfl, rfl, rfl⟩

/-- C8: in each of the two lines `run` writes, a color escape code
precedes the label text and the reset escape code is emitted before the
value, so the label carries the color accent and the value is rendered in
default styling. -/
theorem C8_labels_colored_values_default (st : PlatformState) :
    ∃ v1 v2, run st =
      some [Fore.GREEN ++ "Architecture:" ++ Style.RESET_ALL ++ " " ++ v1,
            Fore.GREEN ++ "Machine:" ++ Style.RESET_ALL ++ " " ++ v2] := by
  exact ⟨st.bits, st.machine, rfl⟩

/-- C9: the `'architecture'` field holds the entire pair returned by the
bitness query; `run` prints only the first component of that pair and its
output is independent of the linkage component, which is silently
discarded. -/
theorem C9_pair_stored_first_component_printed (st : PlatformState) (otherLinkage : String) :
    (get_architecture_info st).architecture = platformArchitecture st ∧
    (get_architecture_info st).architecture = .tuple [st.bits, st.linkage] ∧
    run st = run ⟨st.bits, otherLinkage, st.machine⟩ ∧
    ∃ l2, run st =
      some [Fore.GREEN ++ "Architecture:" ++ Style.RESET_ALL ++ " " ++ st.bits, l2] := by
  exact ⟨rfl, rfl, rfl, _, rfl⟩

/-- C10: for every collector-produced record, indexing the
`'architecture'` field at position 0 is in bounds — the field is a pair —
so the error branch of that access is unreachable and `run` always
succeeds. -/
theorem C10_index_zero_in_bounds (st : PlatformState) :
    pyIndex (get_architecture_info st).architecture 0 = some (.str st.bits) ∧
    (pyIndex (get_architecture_info st).architecture 0).isSome = true ∧
    (run st).isSome = true := by
  exact ⟨rfl, rfl, rfl⟩
